import Mathlib

/-!
Shallow embedding of the SME-Autosservico-Azure-API backend (FastAPI service
translating backlog requests into Azure DevOps WIQL queries and normalizing
the returned work items).  Python sources embedded here:

  * `src/utils/helpers.py`   — date helpers, credential resolution
  * `src/schemas/backlog.py` — request/response data model
  * `src/services/azure_devops.py` — query building, normalization, categorization
  * `src/routers/backlog.py` — the POST/GET `/backlog` handlers

Python exceptions are modelled with `Except PyErr`; machine calls to the
remote platform are modelled by an oracle (`Remote`) and outbound-call
counters, so that properties such as "no outbound call is made" are statable.
-/

namespace Autosservico

/-- Python exception values that matter to the handlers: FastAPI
`HTTPException(status_code, detail)` and a generic `ValueError`. -/
inductive PyErr where
  | httpError (status : Nat) (detail : String)
  | valueError (msg : String)
deriving Repr, DecidableEq

/-- Python truthiness of an `Optional[str]`: `None` and `""` are falsy. -/
def truthyS (o : Option String) : Bool := o.getD "" ≠ ""

/-- Python truthiness of an `Optional[int]`: `None` and `0` are falsy. -/
def truthyI (o : Option Int) : Bool :=
  match o with
  | none => false
  | some n => n ≠ 0

/-- Python truthiness of an `Optional[List[str]]`: `None` and `[]` are falsy. -/
def truthyL (o : Option (List String)) : Bool := o.getD [] ≠ []

/-- Gregorian leap year, as `calendar.isleap`. -/
def isLeapYear (y : Nat) : Bool := (y % 4 == 0 && y % 100 != 0) || y % 400 == 0

/-- Number of days of month `m` of year `y`, as `calendar.monthrange(y, m)[1]`
(the `calendar.mdays` table plus the February leap adjustment). -/
def daysInMonth (y m : Nat) : Nat :=
  if m = 2 then (if isLeapYear y then 29 else 28)
  else if m = 4 ∨ m = 6 ∨ m = 9 ∨ m = 11 then 30
  else 31

/-- Zero-pad a natural number to `width` digits (as `strftime` field padding). -/
def padNum (width n : Nat) : String :=
  let s := toString n
  String.mk (List.replicate (width - s.length) '0') ++ s

/-- Python `datetime.date(y, m, d).strftime("%Y-%m-%d")`. -/
def formatYMD (y m d : Nat) : String :=
  padNum 4 y ++ "-" ++ padNum 2 m ++ "-" ++ padNum 2 d

/-- A calendar date, and `strftime("%d/%m/%Y")` on it. -/
structure SimpleDate where
  year : Nat
  month : Nat
  day : Nat
deriving Repr, DecidableEq

def strftimeDMY (d : SimpleDate) : String :=
  padNum 2 d.day ++ "/" ++ padNum 2 d.month ++ "/" ++ padNum 4 d.year

/-- Numeric value of a list of decimal digit characters. -/
def digitsVal (cs : List Char) : Nat :=
  cs.foldl (fun n c => n * 10 + (c.toNat - 48)) 0

/-- A nonempty all-digit character list. -/
def isDigits (cs : List Char) : Bool := cs ≠ [] && cs.all Char.isDigit

/-- Split a character list at every occurrence of `sep`, keeping empty
segments, as Python `str.split(sep)` does for a one-character separator. -/
def splitOnChar (sep : Char) : List Char → List (List Char)
  | [] => [[]]
  | x :: rest =>
    let r := splitOnChar sep rest
    if x = sep then [] :: r
    else
      match r with
      | g :: gs => (x :: g) :: gs
      | [] => [[x]]

/-- Python `s.split(sep)` for a one-character separator. -/
def pySplit (sep : Char) (s : String) : List String :=
  (splitOnChar sep s.toList).map String.mk

/-- Python `s.strip()` (whitespace removal at both ends, as `int()`
performs before conversion). -/
def pyStrip (s : String) : String :=
  String.mk (((s.toList.dropWhile Char.isWhitespace).reverse.dropWhile
    Char.isWhitespace).reverse)

/-- Embeds `utils/helpers.py: get_first_and_last_day_of_month`.  `datetime.date`
raises `ValueError` outside `1 ≤ year ≤ 9999`, `1 ≤ month ≤ 12`; inside that
range the function returns the first and last day of the month formatted
`%Y-%m-%d`. -/
def get_first_and_last_day_of_month (year month : Int) :
    Except PyErr (String × String) :=
  if 1 ≤ year ∧ year ≤ 9999 ∧ 1 ≤ month ∧ month ≤ 12 then
    let y := year.toNat
    let m := month.toNat
    .ok (formatYMD y m 1, formatYMD y m (daysInMonth y m))
  else .error (.valueError "month must be in 1..12")

/-- Timezone suffix accepted after the time part: empty, `Z`, or `±HH:MM`. -/
def validTZ : List Char → Bool
  | [] => true
  | ['Z'] => true
  | [c, h1, h2, ':', m1, m2] =>
      (c == '+' || c == '-') && h1.isDigit && h2.isDigit && m1.isDigit && m2.isDigit &&
      digitsVal [h1, h2] < 24 && digitsVal [m1, m2] < 60
  | _ => false

/-- Optional fractional seconds followed by the timezone suffix. -/
def validSecFrac : List Char → Bool
  | '.' :: rest =>
      (rest.takeWhile Char.isDigit).length ≥ 1 && validTZ (rest.dropWhile Char.isDigit)
  | rest => validTZ rest

/-- ISO-8601 time-of-day: `HH[:MM[:SS[.ffffff]]]` plus timezone. -/
def validTime : List Char → Bool
  | h1 :: h2 :: rest =>
      h1.isDigit && h2.isDigit && digitsVal [h1, h2] < 24 &&
      (match rest with
       | [] => true
       | ':' :: m1 :: m2 :: rest2 =>
          m1.isDigit && m2.isDigit && digitsVal [m1, m2] < 60 &&
          (match rest2 with
           | [] => true
           | ':' :: s1 :: s2 :: rest3 =>
              s1.isDigit && s2.isDigit && digitsVal [s1, s2] < 60 && validSecFrac rest3
           | rest3 => validTZ rest3)
       | rest2 => validTZ rest2)
  | _ => false

/-- Helper for `isoparse`: validate the calendar date and the optional
`T<time>` suffix. -/
def isoMk (y m d : Nat) (rest : List Char) : Option SimpleDate :=
  if 1 ≤ y ∧ 1 ≤ m ∧ m ≤ 12 ∧ 1 ≤ d ∧ d ≤ daysInMonth y m then
    match rest with
    | [] => some ⟨y, m, d⟩
    | 'T' :: t => if validTime t then some ⟨y, m, d⟩ else none
    | _ => none
  else none

/-- Model of `dateutil.parser.isoparse` on the common subset
`YYYY-MM-DD` / `YYYYMMDD` optionally followed by `T HH[:MM[:SS[.ffffff]]]`
and a `Z`/`±HH:MM` offset, with calendar validation (out-of-range month or
day raises, hence `none`).  Any string outside this grammar is `none`,
standing for the `ValueError` the library raises. -/
def isoparse (s : String) : Option SimpleDate :=
  match s.toList with
  | y1 :: y2 :: y3 :: y4 :: '-' :: m1 :: m2 :: '-' :: d1 :: d2 :: rest =>
    if [y1, y2, y3, y4, m1, m2, d1, d2].all Char.isDigit then
      isoMk (digitsVal [y1, y2, y3, y4]) (digitsVal [m1, m2]) (digitsVal [d1, d2]) rest
    else none
  | y1 :: y2 :: y3 :: y4 :: m1 :: m2 :: d1 :: d2 :: rest =>
    if [y1, y2, y3, y4, m1, m2, d1, d2].all Char.isDigit then
      isoMk (digitsVal [y1, y2, y3, y4]) (digitsVal [m1, m2]) (digitsVal [d1, d2]) rest
    else none
  | _ => none

/-- Embeds `utils/helpers.py: format_date`.  The argument is `Optional[str]` at the
call sites (`fields.get(...)`); `if iso_date:` rejects `None` and `""`, the
`try/except` turns any parse failure into `None`. -/
def format_date (iso_date : Option String) : Option String :=
  match iso_date with
  | none => none
  | some s =>
    if s ≠ "" then
      match isoparse s with
      | some d => some (strftimeDMY d)
      | none => none
    else none

/-- Python `datetime.strptime(s, "%Y-%m-%d")` succeeding: three dash-separated
all-digit groups — `%Y` exactly four digits (CPython's `_strptime` regex for
`%Y` is four `\d`), `%m`/`%d` one or two digits — forming a valid calendar
date with `1 ≤ year` (the `datetime` MINYEAR check; four digits already bound
the year by 9999, MAXYEAR). -/
def strptimeYMDValid (s : String) : Bool :=
  match splitOnChar '-' s.toList with
  | [ys, ms, ds] =>
    isDigits ys && ys.length = 4 && isDigits ms && ms.length ≤ 2 &&
    isDigits ds && ds.length ≤ 2 &&
    (let y := digitsVal ys
     let m := digitsVal ms
     let d := digitsVal ds
     1 ≤ y && y ≤ 9999 && 1 ≤ m && m ≤ 12 && 1 ≤ d && d ≤ daysInMonth y m)
  | _ => false

/-- Python `int(s)` on a string: optional surrounding whitespace, optional
sign, then decimal digits; anything else raises `ValueError`. -/
def pyInt (s : String) : Except PyErr Int :=
  let t := (pyStrip s).toList
  let (sign, digits) :=
    match t with
    | '-' :: rest => ((-1 : Int), rest)
    | '+' :: rest => ((1 : Int), rest)
    | _ => ((1 : Int), t)
  if isDigits digits then .ok (sign * (digitsVal digits : Nat))
  else .error (.valueError ("invalid literal for int() with base 10: '" ++ s ++ "'"))

/-- Embeds `utils/helpers.py: get_env_or_param`. -/
def get_env_or_param (param_value : Option String) (env_value : String)
    (param_name : String) : Except PyErr String :=
  if truthyS param_value then .ok (param_value.getD "")
  else if env_value ≠ "" then .ok env_value
  else .error (.httpError 400
    (param_name ++ " deve ser fornecido no request ou definido no .env"))

/-! ### Data model (`src/schemas/backlog.py` and raw Azure DevOps JSON) -/

/-- A raw JSON field value as the service consumes it: a string, a number
(the two effort fields; modelled as integers, values are only passed
through), or a nested object such as an identity reference. -/
inductive FieldValue where
  | vStr (s : String)
  | vNum (n : Int)
  | vObj (entries : List (String × String))
deriving Repr, DecidableEq

/-- One entry of a work item's `relations` list. -/
structure Relation where
  rel : Option String
  url : Option String
deriving Repr, DecidableEq

/-- A raw work item as returned by the detail fetch: `id`, the
`fields` mapping and the optional `relations` list. -/
structure RawItem where
  id : Int
  fields : List (String × FieldValue)
  relations : Option (List Relation)
deriving Repr, DecidableEq

/-- Python `fields.get(key)` restricted to string-valued fields. -/
def getStr (fields : List (String × FieldValue)) (key : String) : Option String :=
  match fields.lookup key with
  | some (.vStr s) => some s
  | _ => none

/-- Python `fields.get(key, dflt)` for string-valued fields. -/
def getStrD (fields : List (String × FieldValue)) (key dflt : String) : String :=
  (getStr fields key).getD dflt

/-- Python `fields.get(key)` restricted to numeric fields. -/
def getNum (fields : List (String × FieldValue)) (key : String) : Option Int :=
  match fields.lookup key with
  | some (.vNum n) => some n
  | _ => none

/-- Embeds `schemas/backlog.py: WorkItemFilters`. -/
structure WorkItemFilters where
  work_item_types : Option (List String)
  states : Option (List String)
  area_paths : Option (List String)
  iteration_paths : Option (List String)
  assigned_to : Option (List String)
  tags : Option String
deriving Repr, DecidableEq

/-- Embeds `schemas/backlog.py: WorkItemRequest`. -/
structure WorkItemRequest where
  organization : Option String
  project_name : String
  pat : Option String
  start_date : Option String
  end_date : Option String
  year : Option Int
  month : Option Int
  filters : Option WorkItemFilters
deriving Repr, DecidableEq

/-- Embeds `schemas/backlog.py: WorkItemResponse` (the NormalizedItem). -/
structure WorkItemResponse where
  id : Int
  title : String
  state : Option String
  work_item_type : Option String
  tags : Option String
  created_by : Option String
  assigned_to : Option String
  area_path : Option String
  team_project : Option String
  iteration_path : Option String
  completed_work : Option Int
  original_estimate : Option Int
  start_date : Option String
  finish_date : Option String
  created_date : Option String
  changed_date : Option String
  closed_date : Option String
  parent_id : Option Int
  parent_link : Option String
deriving Repr, DecidableEq

/-- A metadata value: the `metadata` dict holds strings and counts. -/
inductive MetaVal where
  | s (v : String)
  | n (v : Nat)
deriving Repr, DecidableEq

/-- Embeds `schemas/backlog.py: BacklogResponse`. -/
structure BacklogResponse where
  total_items : Nat
  parents : List WorkItemResponse
  children : List WorkItemResponse
  metadata : List (String × MetaVal)
deriving Repr, DecidableEq

/-- Environment configuration (`config.settings`). -/
structure Settings where
  default_organization : String
  azure_devops_pat : String
deriving Repr, DecidableEq

/-- Oracle for the remote Azure DevOps platform: the IDs the WIQL query
returns (as a function of the query text) and the items a detail-batch
call returns. Remote failures are not modelled; every call succeeds. -/
structure Remote where
  queryIds : String → List Int
  fetchBatch : List Int → List RawItem

/-! ### Service (`src/services/azure_devops.py`) -/

/-- Python `start_date or "none"` — the metadata echo of an optional date. -/
def orNone (o : Option String) : String := if truthyS o then o.getD "" else "none"

/-- Comma-join the values, each wrapped in single quotes. -/
def quoteJoin (xs : List String) : String :=
  String.intercalate ", " (xs.map (fun t => "'" ++ t ++ "'"))

/-- Embeds `AzureDevOpsService._build_filter_clauses`. -/
def _build_filter_clauses (filters : WorkItemFilters) : List String :=
  (if truthyL filters.work_item_types then
    ["[System.WorkItemType] IN (" ++ quoteJoin (filters.work_item_types.getD []) ++ ")"]
   else []) ++
  (if truthyL filters.states then
    ["[System.State] IN (" ++ quoteJoin (filters.states.getD []) ++ ")"]
   else []) ++
  (if truthyL filters.area_paths then
    (filters.area_paths.getD []).map
      (fun area => "[System.AreaPath] UNDER '" ++ area ++ "'")
   else []) ++
  (if truthyL filters.iteration_paths then
    (filters.iteration_paths.getD []).map
      (fun it => "[System.IterationPath] UNDER '" ++ it ++ "'")
   else []) ++
  (if truthyL filters.assigned_to then
    ["[System.AssignedTo] IN (" ++ quoteJoin (filters.assigned_to.getD []) ++ ")"]
   else []) ++
  (if truthyS filters.tags then
    ["[System.Tags] CONTAINS '" ++ filters.tags.getD "" ++ "'"]
   else [])

/-- The WIQL string `AzureDevOpsService._query_work_items` posts: project
clause, optional date clauses, filter clauses, joined with `AND`, ordered
by creation date descending. -/
def buildWiql (project_name : String) (start_date end_date : Option String)
    (filters : Option WorkItemFilters) : String :=
  let where_clauses :=
    ["[System.TeamProject] = '" ++ project_name ++ "'"] ++
    (if truthyS start_date then
      ["[System.CreatedDate] >= '" ++ start_date.getD "" ++ "'"] else []) ++
    (if truthyS end_date then
      ["[System.CreatedDate] <= '" ++ end_date.getD "" ++ "'"] else []) ++
    (match filters with
     | some f => _build_filter_clauses f
     | none => [])
  "SELECT [System.Id] FROM WorkItems WHERE " ++
    String.intercalate " AND " where_clauses ++
    " ORDER BY [System.CreatedDate] DESC"

/-- The relation-type tag of a parent link. -/
def isRevHierarchy (r : Relation) : Bool :=
  r.rel == some "System.LinkTypes.Hierarchy-Reverse"

/-- Embeds `AzureDevOpsService._extract_parent_info`.  `if not relations` handles
`None` and `[]`; the loop breaks at the first reverse-hierarchy relation:
if its `url` (defaulted to `""`) is non-empty the trailing `/`-segment is
converted with `int(...)` (which may raise), otherwise both results are
`None`. -/
def _extract_parent_info (relations : Option (List Relation)) :
    Except PyErr (Option Int × Option String) :=
  match (relations.getD []).find? isRevHierarchy with
  | none => .ok (none, none)
  | some r =>
    let parent_url := r.url.getD ""
    if parent_url ≠ "" then
      match pyInt ((pySplit '/' parent_url).getLastD "") with
      | .ok n => .ok (some n, some parent_url)
      | .error e => .error e
    else .ok (none, none)

/-- Embeds `AzureDevOpsService._get_display_name`. -/
def _get_display_name (field_value : Option FieldValue) : Option String :=
  match field_value with
  | some (.vObj entries) => entries.lookup "displayName"
  | _ => none

/-- The `WorkItemResponse(...)` record constructed by
`_create_work_item_response` once parent extraction has succeeded. -/
def mkWorkItemResponse (item : RawItem) (parent_id : Option Int)
    (parent_link : Option String) : WorkItemResponse :=
  let fields := item.fields
  { id := item.id
    title := getStrD fields "System.Title" ""
    state := getStr fields "System.State"
    work_item_type := some (getStrD fields "System.WorkItemType" "")
    tags := getStr fields "System.Tags"
    created_by := _get_display_name (fields.lookup "System.CreatedBy")
    assigned_to := _get_display_name (fields.lookup "System.AssignedTo")
    area_path := getStr fields "System.AreaPath"
    team_project := getStr fields "System.TeamProject"
    iteration_path := getStr fields "System.IterationPath"
    completed_work := getNum fields "Microsoft.VSTS.Scheduling.CompletedWork"
    original_estimate := getNum fields "Microsoft.VSTS.Scheduling.OriginalEstimate"
    start_date := format_date (getStr fields "Microsoft.VSTS.Scheduling.StartDate")
    finish_date := format_date (getStr fields "Microsoft.VSTS.Scheduling.FinishDate")
    created_date := format_date (getStr fields "System.CreatedDate")
    changed_date := format_date (getStr fields "System.ChangedDate")
    closed_date := format_date (getStr fields "Microsoft.VSTS.Common.ClosedDate")
    parent_id := parent_id
    parent_link := parent_link
  }

/-- Embeds `AzureDevOpsService._create_work_item_response`. -/
def _create_work_item_response (item : RawItem) : Except PyErr WorkItemResponse := do
  let (parent_id, parent_link) ← _extract_parent_info item.relations
  return mkWorkItemResponse item parent_id parent_link

/-- The fixed parent-type set of `_categorize_work_items`. -/
def parentTypes : List String := ["Epic", "Feature", "User Story", "Product Backlog Item"]

/-- Python `work_item_response.work_item_type in parent_types` (set
membership; `None` is never a member). -/
def isParentItem (w : WorkItemResponse) : Bool :=
  match w.work_item_type with
  | some t => parentTypes.contains t
  | none => false

/-- Embeds `AzureDevOpsService._categorize_work_items`: normalize each item in
input order and append it to `parents` or `children` by type. -/
def _categorize_work_items :
    List RawItem → Except PyErr (List WorkItemResponse × List WorkItemResponse)
  | [] => .ok ([], [])
  | item :: rest => do
    let w ← _create_work_item_response item
    let (ps, cs) ← _categorize_work_items rest
    if isParentItem w then return (w :: ps, cs) else return (ps, w :: cs)

/-- The loop of `_get_work_items_details` (`for i in range(0, len(ids),
200)`): one outbound call per batch of 200, results accumulated in batch
order.  `fuel` bounds the number of iterations; each iteration drops at
least one element, so any fuel of at least the list length is exact. -/
def fetchDetailBatches (remote : Remote) : Nat → List Int → List RawItem × Nat
  | _, [] => ([], 0)
  | 0, _ :: _ => ([], 0)
  | fuel + 1, id0 :: rest =>
    let batch := (id0 :: rest).take 200
    let remaining := (id0 :: rest).drop 200
    let (items, n) := fetchDetailBatches remote fuel remaining
    (remote.fetchBatch batch ++ items, n + 1)

/-- Embeds `AzureDevOpsService._get_work_items_details`: split the ID list into
batches of 200 and issue one outbound call per batch.  Returns the items
and the number of outbound calls. -/
def _get_work_items_details (remote : Remote) (work_item_ids : List Int) :
    List RawItem × Nat :=
  fetchDetailBatches remote work_item_ids.length work_item_ids

/-- Embeds `AzureDevOpsService.get_backlog_data`.  Returns the response (or the
propagated exception) together with the number of WIQL query calls (always
one) and the number of detail-batch calls. -/
def get_backlog_data (organization project_name : String) (remote : Remote)
    (start_date end_date : Option String) (filters : Option WorkItemFilters) :
    Except PyErr BacklogResponse × Nat × Nat :=
  let wiql := buildWiql project_name start_date end_date filters
  let work_item_ids := remote.queryIds wiql
  if work_item_ids = [] then
    (.ok { total_items := 0, parents := [], children := [],
           metadata := [("start_date", .s (orNone start_date)),
                        ("end_date", .s (orNone end_date)),
                        ("organization", .s organization),
                        ("project", .s project_name)] }, 1, 0)
  else
    let (work_items, dcalls) := _get_work_items_details remote work_item_ids
    match _categorize_work_items work_items with
    | .error e => (.error e, 1, dcalls)
    | .ok (parents, children) =>
      (.ok { total_items := work_items.length, parents := parents, children := children,
             metadata := [("start_date", .s (orNone start_date)),
                          ("end_date", .s (orNone end_date)),
                          ("organization", .s organization),
                          ("project", .s project_name),
                          ("total_parents", .n parents.length),
                          ("total_children", .n children.length)] }, 1, dcalls)

/-! ### Router (`src/routers/backlog.py`) -/

/-- The `except Exception` branch of the POST handler: any non-HTTP
exception becomes a 500 with a generic prefix; `HTTPException` is
re-raised unchanged. -/
def wrapUnexpected : PyErr → PyErr
  | .httpError s d => .httpError s d
  | .valueError m => .httpError 500 ("Erro interno do servidor: " ++ m)

/-- Embeds `routers/backlog.py: get_backlog` (POST `/backlog`).  Returns the
handler outcome and the total number of outbound calls made. -/
def get_backlog (request : WorkItemRequest) (st : Settings) (remote : Remote) :
    Except PyErr BacklogResponse × Nat :=
  match get_env_or_param request.organization st.default_organization "organization" with
  | .error e => (.error e, 0)
  | .ok organization =>
  match get_env_or_param request.pat st.azure_devops_pat "Personal Access Token" with
  | .error _e => (.error _e, 0)
  | .ok _pat =>
  let dates : Except PyErr (Option String × Option String) :=
    if truthyS request.start_date && truthyS request.end_date then
      .ok (request.start_date, request.end_date)
    else if truthyI request.year && truthyI request.month then
      match get_first_and_last_day_of_month (request.year.getD 0) (request.month.getD 0) with
      | .ok (f, l) => .ok (some f, some l)
      | .error e => .error e
    else .ok (none, none)
  match dates with
  | .error e => (.error (wrapUnexpected e), 0)
  | .ok (start_date, end_date) =>
  if truthyS start_date && truthyS end_date &&
     !(strptimeYMDValid (start_date.getD "") && strptimeYMDValid (end_date.getD "")) then
    (.error (.httpError 400 "Formato de data inválido. Use YYYY-MM-DD"), 0)
  else
    let (res, q, d) := get_backlog_data organization request.project_name remote
        start_date end_date request.filters
    match res with
    | .ok r => (.ok r, q + d)
    | .error e => (.error (wrapUnexpected e), q + d)

/-- Embeds `routers/backlog.py: get_backlog_query_params` (GET `/backlog`):
build a `WorkItemFilters` from the comma-separated query parameters when
any is supplied, assemble a `WorkItemRequest`, delegate to the POST
handler. -/
def get_backlog_query_params (project_name : String)
    (organization pat start_date end_date : Option String)
    (year month : Option Int)
    (work_item_types states area_paths iteration_paths assigned_to tags : Option String)
    (st : Settings) (remote : Remote) : Except PyErr BacklogResponse × Nat :=
  let anyFilter := truthyS work_item_types || truthyS states || truthyS area_paths ||
    truthyS iteration_paths || truthyS assigned_to || truthyS tags
  let sfilters : Option WorkItemFilters :=
    if anyFilter then
      some {
        work_item_types :=
          if truthyS work_item_types then some ((work_item_types.getD "").splitOn ",") else none
        states := if truthyS states then some ((states.getD "").splitOn ",") else none
        area_paths := if truthyS area_paths then some ((area_paths.getD "").splitOn ",") else none
        iteration_paths :=
          if truthyS iteration_paths then some ((iteration_paths.getD "").splitOn ",") else none
        assigned_to :=
          if truthyS assigned_to then some ((assigned_to.getD "").splitOn ",") else none
        tags := tags }
    else none
  get_backlog
    { organization := organization, project_name := project_name, pat := pat,
      start_date := start_date, end_date := end_date, year := year, month := month,
      filters := sfilters } st remote

/-! ### Auxiliary definitions used to state the properties -/

/-- Normalize a list of raw items in input order (what the categorization
loop computes before routing each response into a bucket). -/
def normalizeItems : List RawItem → Except PyErr (List WorkItemResponse)
  | [] => .ok []
  | i :: rest => do
    let w ← _create_work_item_response i
    let ws ← normalizeItems rest
    return w :: ws

/-- A day number that exists in the given month (spec-side notion of
"calendar day"). -/
def isCalendarDay (y m d : Nat) : Bool := 1 ≤ d && d ≤ daysInMonth y m

/-- Spec-side clause for a list-valued category: one quoted comma-joined
IN clause when the category is non-empty, nothing otherwise. -/
def specInClause (pre : String) (o : Option (List String)) : List String :=
  match o with
  | some (x :: xs) => [pre ++ quoteJoin (x :: xs) ++ ")"]
  | _ => []

/-- Spec-side clause for a single optional string (tag, date bound): one
clause when a non-empty value is supplied, nothing otherwise. -/
def specStrClause (pre : String) (o : Option String) : List String :=
  match o with
  | some t => if t = "" then [] else [pre ++ t ++ "'"]
  | none => []

/-- The filter-clause list as the spec describes it: exactly one quoted
comma-joined IN clause per non-empty list category (types, states,
assignees), one UNDER clause per area path and per iteration path (never a
combined IN-list for paths), and one CONTAINS clause for a present tag. -/
def specFilterClauses (f : WorkItemFilters) : List String :=
  specInClause "[System.WorkItemType] IN (" f.work_item_types ++
  specInClause "[System.State] IN (" f.states ++
  (f.area_paths.getD []).map (fun a => "[System.AreaPath] UNDER '" ++ a ++ "'") ++
  (f.iteration_paths.getD []).map (fun it => "[System.IterationPath] UNDER '" ++ it ++ "'") ++
  specInClause "[System.AssignedTo] IN (" f.assigned_to ++
  specStrClause "[System.Tags] CONTAINS '" f.tags

/-- The whole query as the spec describes it: always a project-name clause
first, a created-on-or-after / created-on-or-before clause per supplied
bound, the filter clauses, all joined with AND, ordering requested
descending by creation date. -/
def specWiql (project : String) (sd ed : Option String)
    (f : Option WorkItemFilters) : String :=
  "SELECT [System.Id] FROM WorkItems WHERE " ++
  String.intercalate " AND "
    (["[System.TeamProject] = '" ++ project ++ "'"] ++
     specStrClause "[System.CreatedDate] >= '" sd ++
     specStrClause "[System.CreatedDate] <= '" ed ++
     (match f with
      | some ff => specFilterClauses ff
      | none => [])) ++
  " ORDER BY [System.CreatedDate] DESC"

/-! ### Concrete fixtures for witnesses and counterexamples -/

/-- Settings with a usable default organization and token. -/
def demoSettings : Settings :=
  { default_organization := "demo-org", azure_devops_pat := "demo-pat" }

/-- A remote whose WIQL query matches zero work items. -/
def demoRemoteEmpty : Remote :=
  { queryIds := fun _ => [], fetchBatch := fun _ => [] }

/-- A raw item with an empty field mapping and no relations. -/
def demoEmptyItem : RawItem := { id := 7, fields := [], relations := none }

/-- A raw item whose first reverse-hierarchy relation URL ends in a
non-numeric segment. -/
def demoBadItem : RawItem :=
  { id := 1, fields := [("System.Title", .vStr "t")],
    relations := some [{ rel := some "System.LinkTypes.Hierarchy-Reverse",
                         url := some "https://dev.azure.com/org/_apis/wit/workItems/abc" }] }

/-- A remote returning one ID whose detail record is `demoBadItem`. -/
def demoRemoteBad : Remote :=
  { queryIds := fun _ => [1], fetchBatch := fun _ => [demoBadItem] }

/-- A request with explicit credentials and no date constraints. -/
def demoPlainRequest : WorkItemRequest :=
  { organization := some "o", project_name := "P", pat := some "p",
    start_date := none, end_date := none, year := none, month := none, filters := none }

/-- A raw item with two reverse-hierarchy relations; only the first may be
used. -/
def demoParentItem : RawItem :=
  { id := 9, fields := [],
    relations := some
      [{ rel := some "System.LinkTypes.Hierarchy-Reverse",
         url := some "https://dev.azure.com/org/proj/_apis/wit/workItems/123" },
       { rel := some "System.LinkTypes.Hierarchy-Reverse",
         url := some "https://dev.azure.com/org/proj/_apis/wit/workItems/456" }] }

/-- A parent-typed raw item (a User Story). -/
def demoStoryItem : RawItem :=
  { id := 2,
    fields := [("System.WorkItemType", .vStr "User Story"), ("System.Title", .vStr "s")],
    relations := none }

/-- A child-typed raw item (a Bug). -/
def demoBugItem : RawItem :=
  { id := 3, fields := [("System.WorkItemType", .vStr "Bug")], relations := none }

/-- The normalized form of `demoEmptyItem`. -/
def demoEmptyNormalized : WorkItemResponse :=
  mkWorkItemResponse demoEmptyItem none none

/-- The normalized form of `demoStoryItem`. -/
def demoStoryNormalized : WorkItemResponse :=
  mkWorkItemResponse demoStoryItem none none

/-- The normalized form of `demoBugItem`. -/
def demoBugNormalized : WorkItemResponse :=
  mkWorkItemResponse demoBugItem none none

/-- A request supplying both explicit dates, with a malformed start date. -/
def demoBadDatesRequest : WorkItemRequest :=
  { organization := some "o", project_name := "P", pat := some "p",
    start_date := some "2023-13-01", end_date := some "2023-12-01",
    year := none, month := none, filters := none }

/-- A filter set exercising every category. -/
def demoFilters : WorkItemFilters :=
  { work_item_types := some ["Bug", "Task"], states := some ["New", "Active"],
    area_paths := some ["A\\B", "C"], iteration_paths := some ["It1"],
    assigned_to := some ["u@x"], tags := some "urgent" }

/-! ### Helper lemmas -/

theorem categorize_ok_spec : ∀ items ps cs,
    _categorize_work_items items = .ok (ps, cs) →
    ∃ ws, normalizeItems items = .ok ws ∧
      ps = ws.filter isParentItem ∧ cs = ws.filter (fun w => !isParentItem w) := by
  intro items
  induction items with
  | nil =>
    intro ps cs h
    simp only [_categorize_work_items, Except.ok.injEq, Prod.mk.injEq] at h
    exact ⟨[], rfl, by simp [← h.1], by simp [← h.2]⟩
  | cons item rest ih =>
    intro ps cs h
    simp only [_categorize_work_items, bind, Except.bind] at h
    cases hc : _create_work_item_response item with
    | error e => rw [hc] at h; exact absurd h (by simp)
    | ok w =>
      rw [hc] at h
      cases hr : _categorize_work_items rest with
      | error e => rw [hr] at h; exact absurd h (by simp)
      | ok pc =>
        obtain ⟨p, c⟩ := pc
        rw [hr] at h
        dsimp only at h
        obtain ⟨ws, hws, hp, hcs⟩ := ih p c hr
        by_cases hw : isParentItem w = true
        · rw [if_pos hw] at h
          simp only [pure, Except.pure, Except.ok.injEq, Prod.mk.injEq] at h
          refine ⟨w :: ws, ?_, ?_, ?_⟩
          · simp [normalizeItems, hc, hws, bind, Except.bind, pure, Except.pure]
          · simp [← h.1, List.filter, hw, hp]
          · simp [← h.2, List.filter, hw, hcs]
        · rw [if_neg hw] at h
          simp only [pure, Except.pure, Except.ok.injEq, Prod.mk.injEq] at h
          refine ⟨w :: ws, ?_, ?_, ?_⟩
          · simp [normalizeItems, hc, hws, bind, Except.bind, pure, Except.pure]
          · simp [← h.1, List.filter, Bool.of_not_eq_true hw, hp]
          · simp [← h.2, List.filter, Bool.of_not_eq_true hw, hcs]

theorem categorize_length : ∀ items ps cs,
    _categorize_work_items items = .ok (ps, cs) →
    ps.length + cs.length = items.length := by
  intro items
  induction items with
  | nil =>
    intro ps cs h
    simp only [_categorize_work_items, Except.ok.injEq, Prod.mk.injEq] at h
    simp [← h.1, ← h.2]
  | cons item rest ih =>
    intro ps cs h
    simp only [_categorize_work_items, bind, Except.bind] at h
    cases hc : _create_work_item_response item with
    | error e => rw [hc] at h; exact absurd h (by simp)
    | ok w =>
      rw [hc] at h
      cases hr : _categorize_work_items rest with
      | error e => rw [hr] at h; exact absurd h (by simp)
      | ok pc =>
        obtain ⟨p, c⟩ := pc
        rw [hr] at h
        dsimp only at h
        have hl := ih p c hr
        by_cases hw : isParentItem w = true
        · rw [if_pos hw] at h
          simp only [pure, Except.pure, Except.ok.injEq, Prod.mk.injEq] at h
          simp only [← h.1, ← h.2, List.length_cons]
          omega
        · rw [if_neg hw] at h
          simp only [pure, Except.pure, Except.ok.injEq, Prod.mk.injEq] at h
          simp only [← h.1, ← h.2, List.length_cons]
          omega

/-- If parent extraction succeeds the normalizer returns the assembled
record. -/
theorem create_eq (item : RawItem) (pid : Option Int) (pl : Option String)
    (hx : _extract_parent_info item.relations = .ok (pid, pl)) :
    _create_work_item_response item = .ok (mkWorkItemResponse item pid pl) := by
  simp [_create_work_item_response, hx, bind, Except.bind, pure, Except.pure]

/-! ### Claim theorems -/

/-- C10: a RawItem whose first reverse-hierarchy relation URL ends in a
non-numeric segment makes normalization raise (the `int(...)` conversion),
and the whole backlog request then fails with an internal 500 error rather
than treating the parent fields as absent. -/
theorem bad_parent_url_raises :
    _create_work_item_response demoBadItem =
      .error (.valueError "invalid literal for int() with base 10: 'abc'") ∧
    get_backlog demoPlainRequest demoSettings demoRemoteBad =
      (.error (.httpError 500
        "Erro interno do servidor: invalid literal for int() with base 10: 'abc'"), 2) :=
  ⟨rfl, rfl⟩

/-- C3 counterexample: on a RawItem with no `System.WorkItemType` key the
normalizer defaults `work_item_type` to the sentinel `""` instead of
leaving it absent, so the claimed "every field except id and title"
invariant fails. -/
theorem work_item_type_sentinel_counterexample :
    _create_work_item_response demoEmptyItem = .ok demoEmptyNormalized ∧
    demoEmptyItem.fields.lookup "System.WorkItemType" = none ∧
    demoEmptyNormalized.work_item_type = some "" ∧
    demoEmptyNormalized.work_item_type ≠ none :=
  ⟨rfl, rfl, rfl,
   by simp [show demoEmptyNormalized.work_item_type = some "" from rfl]⟩

/-- C3 (amended): normalization maps an absent source key to an absent
output field for every NormalizedItem field except id, title and
work_item_type; work_item_type is defaulted to the empty string when its
key is absent. -/
theorem absent_fields_stay_absent (item : RawItem) (w : WorkItemResponse)
    (h : _create_work_item_response item = .ok w) :
    (item.fields.lookup "System.State" = none → w.state = none) ∧
    (item.fields.lookup "System.Tags" = none → w.tags = none) ∧
    (item.fields.lookup "System.CreatedBy" = none → w.created_by = none) ∧
    (item.fields.lookup "System.AssignedTo" = none → w.assigned_to = none) ∧
    (item.fields.lookup "System.AreaPath" = none → w.area_path = none) ∧
    (item.fields.lookup "System.TeamProject" = none → w.team_project = none) ∧
    (item.fields.lookup "System.IterationPath" = none → w.iteration_path = none) ∧
    (item.fields.lookup "Microsoft.VSTS.Scheduling.CompletedWork" = none →
      w.completed_work = none) ∧
    (item.fields.lookup "Microsoft.VSTS.Scheduling.OriginalEstimate" = none →
      w.original_estimate = none) ∧
    (item.fields.lookup "Microsoft.VSTS.Scheduling.StartDate" = none →
      w.start_date = none) ∧
    (item.fields.lookup "Microsoft.VSTS.Scheduling.FinishDate" = none →
      w.finish_date = none) ∧
    (item.fields.lookup "System.CreatedDate" = none → w.created_date = none) ∧
    (item.fields.lookup "System.ChangedDate" = none → w.changed_date = none) ∧
    (item.fields.lookup "Microsoft.VSTS.Common.ClosedDate" = none →
      w.closed_date = none) ∧
    (item.relations = none → w.parent_id = none ∧ w.parent_link = none) ∧
    (item.fields.lookup "System.WorkItemType" = none → w.work_item_type = some "") := by
  cases hx : _extract_parent_info item.relations with
  | error e =>
    exfalso
    have hbad : _create_work_item_response item = .error e := by
      simp [_create_work_item_response, hx, bind, Except.bind]
    rw [hbad] at h
    cases h
  | ok pr =>
    obtain ⟨pid, pl⟩ := pr
    rw [create_eq item pid pl hx] at h
    have hw : w = mkWorkItemResponse item pid pl := by
      cases h
      rfl
    subst hw
    refine ⟨?_, ?_, ?_, ?_, ?_, ?_, ?_, ?_, ?_, ?_, ?_, ?_, ?_, ?_, ?_, ?_⟩
    · intro hl; simp [mkWorkItemResponse, getStr, hl]
    · intro hl; simp [mkWorkItemResponse, getStr, hl]
    · intro hl; simp [mkWorkItemResponse, _get_display_name, hl]
    · intro hl; simp [mkWorkItemResponse, _get_display_name, hl]
    · intro hl; simp [mkWorkItemResponse, getStr, hl]
    · intro hl; simp [mkWorkItemResponse, getStr, hl]
    · intro hl; simp [mkWorkItemResponse, getStr, hl]
    · intro hl; simp [mkWorkItemResponse, getNum, hl]
    · intro hl; simp [mkWorkItemResponse, getNum, hl]
    · intro hl; simp [mkWorkItemResponse, getStr, format_date, hl]
    · intro hl; simp [mkWorkItemResponse, getStr, format_date, hl]
    · intro hl; simp [mkWorkItemResponse, getStr, format_date, hl]
    · intro hl; simp [mkWorkItemResponse, getStr, format_date, hl]
    · intro hl; simp [mkWorkItemResponse, getStr, format_date, hl]
    · intro hrel
      rw [hrel] at hx
      simp only [_extract_parent_info, Option.getD, List.find?,
        Except.ok.injEq, Prod.mk.injEq] at hx
      exact ⟨by simp [mkWorkItemResponse, ← hx.1], by simp [mkWorkItemResponse, ← hx.2]⟩
    · intro hl; simp [mkWorkItemResponse, getStrD, getStr, hl]

/-- C3 witness: on `demoEmptyItem` every optional field is absent while
`work_item_type` is the empty-string sentinel. -/
theorem absent_fields_stay_absent_witness :
    demoEmptyNormalized.state = none ∧ demoEmptyNormalized.tags = none ∧
    demoEmptyNormalized.parent_id = none ∧
    demoEmptyNormalized.work_item_type = some "" := by
  obtain ⟨h1, h2, _, _, _, _, _, _, _, _, _, _, _, _, h15, h16⟩ :=
    absent_fields_stay_absent demoEmptyItem demoEmptyNormalized rfl
  exact ⟨h1 rfl, h2 rfl, (h15 rfl).1, h16 rfl⟩

/-- C6: a RawItem with no (or an empty) relation list normalizes with both
parent fields absent; one whose first reverse-hierarchy relation carries a
non-empty URL normalizes with `parent_id` the integer parsed from the
URL's final `/`-segment and `parent_link` the full URL; `List.find?`
captures that only the first matching relation is consulted. -/
theorem parent_link_roundtrip (item : RawItem) :
    ((item.relations = none ∨ item.relations = some []) →
      ∃ w, _create_work_item_response item = .ok w ∧
        w.parent_id = none ∧ w.parent_link = none) ∧
    (∀ rels r u n, item.relations = some rels →
      rels.find? isRevHierarchy = some r →
      r.url = some u → u ≠ "" →
      pyInt ((pySplit '/' u).getLastD "") = .ok n →
      ∃ w, _create_work_item_response item = .ok w ∧
        w.parent_id = some n ∧ w.parent_link = some u) := by
  constructor
  · intro h
    have hx : _extract_parent_info item.relations = .ok (none, none) := by
      rcases h with h | h <;> simp [_extract_parent_info, h]
    exact ⟨mkWorkItemResponse item none none, create_eq item none none hx, rfl, rfl⟩
  · intro rels r u n hrel hfind hurl hne hint
    have hx : _extract_parent_info item.relations = .ok (some n, some u) := by
      simp only [_extract_parent_info, hrel, Option.getD, hfind]
      rw [hurl]
      simp only [Option.getD]
      rw [if_pos hne, hint]
    exact ⟨mkWorkItemResponse item (some n) (some u), create_eq item _ _ hx, rfl, rfl⟩

/-- C6 witness: the no-relations case on `demoEmptyItem`, and the
two-matching-relations case on `demoParentItem`, where only the first
relation's URL is used. -/
theorem parent_link_roundtrip_witness :
    (∃ w, _create_work_item_response demoEmptyItem = .ok w ∧
      w.parent_id = none ∧ w.parent_link = none) ∧
    (∃ w, _create_work_item_response demoParentItem = .ok w ∧
      w.parent_id = some 123 ∧
      w.parent_link = some "https://dev.azure.com/org/proj/_apis/wit/workItems/123") :=
  ⟨(parent_link_roundtrip demoEmptyItem).1 (Or.inl rfl),
   (parent_link_roundtrip demoParentItem).2 _ _
     "https://dev.azure.com/org/proj/_apis/wit/workItems/123" 123 rfl rfl rfl
     (by decide) rfl⟩

/-- C7: when the WIQL ID query returns zero IDs the service short-circuits
to the empty BacklogResponse whose metadata echoes the resolved inputs
(start/end dates, organization, project), making the one ID-query call and
zero detail-fetch calls. -/
theorem zero_ids_short_circuit (organization project_name : String)
    (remote : Remote) (start_date end_date : Option String)
    (filters : Option WorkItemFilters)
    (h : remote.queryIds (buildWiql project_name start_date end_date filters) = []) :
    get_backlog_data organization project_name remote start_date end_date filters =
      (.ok { total_items := 0, parents := [], children := [],
             metadata := [("start_date", .s (orNone start_date)),
                          ("end_date", .s (orNone end_date)),
                          ("organization", .s organization),
                          ("project", .s project_name)] }, 1, 0) := by
  simp [get_backlog_data, h]

/-- C7 witness: a February-2024 request against a remote with zero
matching IDs returns the empty result echoing the range
2024-02-01..2024-02-29, with no detail call. -/
theorem zero_ids_short_circuit_witness :
    get_backlog_data "demo-org" "P" demoRemoteEmpty
        (some "2024-02-01") (some "2024-02-29") none =
      (.ok { total_items := 0, parents := [], children := [],
             metadata := [("start_date", .s "2024-02-01"),
                          ("end_date", .s "2024-02-29"),
                          ("organization", .s "demo-org"),
                          ("project", .s "P")] }, 1, 0) :=
  zero_ids_short_circuit "demo-org" "P" demoRemoteEmpty
    (some "2024-02-01") (some "2024-02-29") none rfl

/-- C1: every BacklogResponse the service returns (zero-ID short-circuit
or full fetch) satisfies `total_items = parents.length + children.length`. -/
theorem total_items_invariant (organization project_name : String)
    (remote : Remote) (start_date end_date : Option String)
    (filters : Option WorkItemFilters) (r : BacklogResponse) (q d : Nat)
    (h : get_backlog_data organization project_name remote start_date end_date filters
          = (.ok r, q, d)) :
    r.total_items = r.parents.length + r.children.length := by
  unfold get_backlog_data at h
  dsimp only at h
  split at h
  · simp only [Prod.mk.injEq, Except.ok.injEq] at h
    obtain ⟨hr, -⟩ := h
    rw [← hr]
    rfl
  · split at h
    · exact absurd h (by simp)
    · next parents children heq =>
      simp only [Prod.mk.injEq, Except.ok.injEq] at h
      obtain ⟨hr, -⟩ := h
      rw [← hr]
      exact (categorize_length _ _ _ heq).symm

/-- C1 witness: the empty-backlog case. -/
theorem total_items_invariant_witness :
    (0 : Nat) = ([] : List WorkItemResponse).length + ([] : List WorkItemResponse).length :=
  total_items_invariant "demo-org" "P" demoRemoteEmpty none none none
    { total_items := 0, parents := [], children := [],
      metadata := [("start_date", .s "none"), ("end_date", .s "none"),
                   ("organization", .s "demo-org"), ("project", .s "P")] }
    1 0 rfl

/-- C5: categorization is a stable total partition of the normalized
items: parents are exactly the items whose type is in the fixed parent set
(in input order), children are exactly the rest (in input order), the two
bucket sizes add to the input size, and every normalized item lands in a
bucket exactly according to its type. -/
theorem categorize_stable_partition (items : List RawItem)
    (ps cs : List WorkItemResponse)
    (h : _categorize_work_items items = .ok (ps, cs)) :
    ∃ ws, normalizeItems items = .ok ws ∧
      ps = ws.filter isParentItem ∧
      cs = ws.filter (fun w => !isParentItem w) ∧
      ps.length + cs.length = ws.length ∧
      (∀ w ∈ ws, (w ∈ ps ↔ isParentItem w = true) ∧
                 (w ∈ cs ↔ isParentItem w = false)) := by
  obtain ⟨ws, hws, hp, hc⟩ := categorize_ok_spec items ps cs h
  refine ⟨ws, hws, hp, hc, ?_, ?_⟩
  · rw [hp, hc]
    exact (List.length_eq_length_filter_add isParentItem).symm
  · intro w hw
    subst hp hc
    constructor
    · simp [List.mem_filter, hw]
    · simp [List.mem_filter, hw]

/-- C5 witness: one parent-typed and one child-typed item partition into
the expected singleton buckets. -/
theorem categorize_stable_partition_witness :
    ∃ ws, normalizeItems [demoStoryItem, demoBugItem] = .ok ws ∧
      [demoStoryNormalized] = ws.filter isParentItem ∧
      [demoBugNormalized] = ws.filter (fun w => !isParentItem w) ∧
      [demoStoryNormalized].length + [demoBugNormalized].length = ws.length ∧
      (∀ w ∈ ws, (w ∈ [demoStoryNormalized] ↔ isParentItem w = true) ∧
                 (w ∈ [demoBugNormalized] ↔ isParentItem w = false)) :=
  categorize_stable_partition [demoStoryItem, demoBugItem]
    [demoStoryNormalized] [demoBugNormalized] rfl

/-- C2 counterexample: a GET `/backlog` request supplying only a malformed
`start_date` ("2023-13-01", no end_date, no year/month) is not rejected:
the handler silently drops the date, answers with the empty 200 result,
and one outbound call is made — contradicting "ValidationError before any
outbound call" for requests supplying one malformed date string. -/
theorem lone_malformed_date_not_validated :
    get_backlog_query_params "P" none (some "p") (some "2023-13-01") none none none
        none none none none none none demoSettings demoRemoteEmpty =
      (.ok { total_items := 0, parents := [], children := [],
             metadata := [("start_date", .s "none"), ("end_date", .s "none"),
                          ("organization", .s "demo-org"), ("project", .s "P")] },
       1) := rfl

/-- C2 (amended): a backlog request that supplies BOTH explicit date
strings (non-empty), at least one of which is not a valid YYYY-MM-DD date,
terminates with HTTP 400 "Formato de data inválido" before any outbound
call, provided organization and token resolve; a request supplying only
one explicit date string has it silently ignored instead. -/
theorem both_dates_validated_before_outbound
    (req : WorkItemRequest) (st : Settings) (remote : Remote) (o p : String)
    (ho : get_env_or_param req.organization st.default_organization "organization" = .ok o)
    (hp : get_env_or_param req.pat st.azure_devops_pat "Personal Access Token" = .ok p)
    (hs : truthyS req.start_date = true) (he : truthyS req.end_date = true)
    (hbad : ¬(strptimeYMDValid (req.start_date.getD "") = true ∧
              strptimeYMDValid (req.end_date.getD "") = true)) :
    get_backlog req st remote =
      (.error (.httpError 400 "Formato de data inválido. Use YYYY-MM-DD"), 0) := by
  have hb : (strptimeYMDValid (req.start_date.getD "") &&
             strptimeYMDValid (req.end_date.getD "")) = false := by
    rcases h1 : strptimeYMDValid (req.start_date.getD "") <;>
      rcases h2 : strptimeYMDValid (req.end_date.getD "") <;> simp_all
  simp [get_backlog, ho, hp, hs, he, hb]

/-- C2 witness: both dates supplied, start date "2023-13-01" malformed ⇒
400 with zero outbound calls. -/
theorem both_dates_validated_before_outbound_witness :
    get_backlog demoBadDatesRequest demoSettings demoRemoteEmpty =
      (.error (.httpError 400 "Formato de data inválido. Use YYYY-MM-DD"), 0) :=
  both_dates_validated_before_outbound demoBadDatesRequest demoSettings demoRemoteEmpty
    "o" "p" rfl rfl rfl rfl (by decide)

/-- C9: date formatting is total (modelled as a total function): absent
and empty inputs yield absent, a parsable ISO-8601 timestamp is
reformatted to DD/MM/YYYY, an unparsable string yields absent (the
exception is swallowed), and the documented example holds. -/
theorem format_date_behavior :
    format_date none = none ∧
    format_date (some "") = none ∧
    (∀ s d, isoparse s = some d →
      format_date (some s) =
        some (padNum 2 d.day ++ "/" ++ padNum 2 d.month ++ "/" ++ padNum 4 d.year)) ∧
    (∀ s, isoparse s = none → format_date (some s) = none) ∧
    format_date (some "2024-01-15T09:00:00.000Z") = some "15/01/2024" := by
  refine ⟨rfl, rfl, ?_, ?_, rfl⟩
  · intro s d hparse
    have hne : s ≠ "" := by
      intro hs
      subst hs
      simp [isoparse] at hparse
    simp [format_date, hne, hparse, strftimeDMY]
  · intro s hparse
    by_cases hne : s = ""
    · subst hne; rfl
    · simp [format_date, hne, hparse]

/-- C9 witness: a parsable timestamp formats to DD/MM/YYYY, an unparsable
string yields absent. -/
theorem format_date_behavior_witness :
    format_date (some "2024-01-15T09:00:00.000Z") = some "15/01/2024" ∧
    format_date (some "2023-13-01") = none ∧
    format_date (some "garbage") = none :=
  ⟨format_date_behavior.2.2.2.2,
   format_date_behavior.2.2.2.1 "2023-13-01" rfl,
   format_date_behavior.2.2.2.1 "garbage" rfl⟩

theorem daysInMonth_pos (y m : Nat) : 1 ≤ daysInMonth y m := by
  unfold daysInMonth
  split_ifs <;> omega

/-- C8: for every valid (year, month) the derived range starts at
YYYY-MM-01 and ends at the last calendar day of that month (a valid day
with no valid successor in the month); the leap February 2024 yields
2024-02-01..2024-02-29. -/
theorem month_range_first_and_last (year month : Int)
    (h1 : 1 ≤ year) (h2 : year ≤ 9999) (h3 : 1 ≤ month) (h4 : month ≤ 12) :
    (∃ last : Nat,
      get_first_and_last_day_of_month year month =
        .ok (padNum 4 year.toNat ++ "-" ++ padNum 2 month.toNat ++ "-01",
             padNum 4 year.toNat ++ "-" ++ padNum 2 month.toNat ++ "-" ++ padNum 2 last) ∧
      isCalendarDay year.toNat month.toNat last = true ∧
      isCalendarDay year.toNat month.toNat (last + 1) = false) ∧
    get_first_and_last_day_of_month 2024 2 = .ok ("2024-02-01", "2024-02-29") := by
  refine ⟨⟨daysInMonth year.toNat month.toNat, ?_, ?_, ?_⟩, rfl⟩
  · unfold get_first_and_last_day_of_month
    rw [if_pos ⟨h1, h2, h3, h4⟩]
    dsimp only
    unfold formatYMD
    rw [show padNum 2 1 = "01" from rfl, String.append_assoc]
    rfl
  · simp [isCalendarDay, daysInMonth_pos]
  · simp [isCalendarDay]

/-- C8 witness: the leap-year instance at (2024, 2). -/
theorem month_range_first_and_last_witness :
    (∃ last : Nat,
      get_first_and_last_day_of_month 2024 2 =
        .ok (padNum 4 (2024 : Int).toNat ++ "-" ++ padNum 2 (2 : Int).toNat ++ "-01",
             padNum 4 (2024 : Int).toNat ++ "-" ++ padNum 2 (2 : Int).toNat ++ "-" ++
               padNum 2 last) ∧
      isCalendarDay (2024 : Int).toNat (2 : Int).toNat last = true ∧
      isCalendarDay (2024 : Int).toNat (2 : Int).toNat (last + 1) = false) ∧
    get_first_and_last_day_of_month 2024 2 = .ok ("2024-02-01", "2024-02-29") :=
  month_range_first_and_last 2024 2 (by norm_num) (by norm_num) (by norm_num) (by norm_num)

theorem seg_in (pre : String) (o : Option (List String)) :
    (if truthyL o then [pre ++ quoteJoin (o.getD []) ++ ")"] else []) =
      specInClause pre o := by
  rcases o with _ | l
  · simp [truthyL, specInClause]
  · cases l <;> simp [truthyL, specInClause]

theorem seg_under (o : Option (List String)) (g : String → String) :
    (if truthyL o then (o.getD []).map g else []) = (o.getD []).map g := by
  rcases o with _ | l
  · simp [truthyL]
  · cases l <;> simp [truthyL]

theorem seg_str (pre : String) (o : Option String) :
    (if truthyS o then [pre ++ o.getD "" ++ "'"] else []) =
      specStrClause pre o := by
  rcases o with _ | t
  · simp [truthyS, specStrClause]
  · by_cases h : t = "" <;> simp [truthyS, specStrClause, h]

theorem filter_clauses_spec (f : WorkItemFilters) :
    _build_filter_clauses f = specFilterClauses f := by
  unfold _build_filter_clauses specFilterClauses
  rw [seg_in, seg_in, seg_in, seg_str, seg_under, seg_under]

theorem specInClause_length (pre : String) (o : Option (List String)) :
    (specInClause pre o).length = if truthyL o then 1 else 0 := by
  rcases o with _ | l
  · simp [specInClause, truthyL]
  · cases l <;> simp [specInClause, truthyL]

theorem specStrClause_length (pre : String) (o : Option String) :
    (specStrClause pre o).length = if truthyS o then 1 else 0 := by
  rcases o with _ | t
  · simp [specStrClause, truthyS]
  · by_cases h : t = "" <;> simp [specStrClause, truthyS, h]

/-- C4: the built WIQL query has exactly the structure the spec describes:
a leading project clause, one date clause per supplied bound, exactly one
IN clause per non-empty list category, one UNDER clause per area path and
per iteration path, one CONTAINS clause for a present tag, all joined with
AND and ordered descending by creation date — and the filter-clause count
is exactly one per non-empty category plus one per path. -/
theorem wiql_query_structure (project_name : String) (sd ed : Option String)
    (fo : Option WorkItemFilters) :
    buildWiql project_name sd ed fo = specWiql project_name sd ed fo ∧
    (∀ f, fo = some f →
      (_build_filter_clauses f).length =
        (if truthyL f.work_item_types then 1 else 0) +
        (if truthyL f.states then 1 else 0) +
        (f.area_paths.getD []).length +
        (f.iteration_paths.getD []).length +
        (if truthyL f.assigned_to then 1 else 0) +
        (if truthyS f.tags then 1 else 0)) := by
  constructor
  · unfold buildWiql specWiql
    rw [seg_str, seg_str]
    rcases fo with _ | f
    · rfl
    · dsimp only
      rw [filter_clauses_spec]
  · intro f _
    rw [filter_clauses_spec]
    unfold specFilterClauses
    simp only [List.length_append, specInClause_length, specStrClause_length,
      List.length_map]

/-- C4 witness: the clause count at a filter set exercising every
category. -/
theorem wiql_query_structure_witness :
    (_build_filter_clauses demoFilters).length =
      (if truthyL demoFilters.work_item_types then 1 else 0) +
      (if truthyL demoFilters.states then 1 else 0) +
      (demoFilters.area_paths.getD []).length +
      (demoFilters.iteration_paths.getD []).length +
      (if truthyL demoFilters.assigned_to then 1 else 0) +
      (if truthyS demoFilters.tags then 1 else 0) :=
  (wiql_query_structure "P" none none (some demoFilters)).2 demoFilters rfl

end Autosservico
